import Mathlib

/-!
Shallow embedding of the session supervisor in `src/gosling-manager.ts`
(class `GoslingManager`).  JavaScript strings are modelled as lists of
characters (`Str`); string `length` counts characters.  Timestamps
(`Date.getTime()` values) are modelled as integers.  The registry
(`Map<string, Gosling>`) is modelled as a list in insertion order, since a
JS `Map` preserves insertion order.  A spawned child process is modelled
abstractly by the only properties the manager ever inspects: whether its
stdin exists and is writable, and whether a stdin write succeeds.
-/

namespace MotherGoose

/-- JavaScript string, modelled as a list of characters. -/
abbrev Str := List Char

/-- The newline character used by every `split('\n')` in the source. -/
def nl : Char := '\n'

/-- Session status (`"running" | "completed" | "error"`). -/
inductive GStatus
  | running
  | completed
  | error
  deriving DecidableEq

/-- Boolean test for the `running` status (used by `filter` in the source). -/
def GStatus.isRunning : GStatus → Bool
  | .running => true
  | _ => false

/-- Entry of `promptHistory` (source: interface `PromptEntry`). -/
structure PromptEntry where
  prompt : Str
  timestamp : Int
  deriving DecidableEq

/-- Activity classification (source: enum `ActivityStatus`). -/
inductive ActivityStatus
  | WORKING
  | IDLE
  deriving DecidableEq

/-- Abstract model of a spawned `ChildProcess`: the manager only inspects
whether stdin is present and writable, and whether a write to it succeeds. -/
structure ProcessModel where
  stdinWritable : Bool
  writeSucceeds : Bool
  deriving DecidableEq

/-- Session record (source: interface `Gosling`). -/
structure Gosling where
  id : Str
  prompt : Str
  options : List Str
  process : ProcessModel
  status : GStatus
  output : Str
  error : Str
  startTime : Int
  endTime : Option Int
  promptHistory : List PromptEntry
  outputLineCount : Nat
  sessionName : Str
  lastOutputTime : Int
  outputSize : Nat
  promptCount : Nat
  deriving DecidableEq

/-- Source: interface `CircuitBreakerConfig`. -/
structure CircuitBreakerConfig where
  maxActiveGoslings : Nat
  maxTotalGoslings : Nat
  maxRuntimeMinutes : Nat
  maxOutputSizeBytes : Nat
  maxPromptsPerGosling : Nat
  autoTerminateIdleMinutes : Nat
  enabled : Bool
  deriving DecidableEq

/-- State of a `GoslingManager`: the registry (insertion order) and the
circuit breaker configuration. -/
structure ManagerState where
  goslings : List Gosling
  circuitBreaker : CircuitBreakerConfig
  deriving DecidableEq

/-- One external command invocation handed to `spawn`. -/
structure SpawnInvocation where
  cmd : Str
  args : List Str
  deriving DecidableEq

/-- Source `getGosling`: `this.goslings.get(id)`. -/
def getGosling (st : ManagerState) (id : Str) : Option Gosling :=
  st.goslings.find? (fun g => g.id == id)

/-- Source `getAllGoslings`: `Array.from(this.goslings.values())`. -/
def getAllGoslings (st : ManagerState) : List Gosling :=
  st.goslings

/-- Number of sessions with status `running`
(source: `getAllGoslings().filter(g => g.status === "running").length`). -/
def activeCount (st : ManagerState) : Nat :=
  ((getAllGoslings st).filter (fun g => g.status.isRunning)).length

/-- In-place mutation of the record with the given id, modelled as a
functional replacement in the registry list. -/
def updateGosling (st : ManagerState) (id : Str) (g : Gosling) : ManagerState :=
  { st with goslings := st.goslings.map (fun x => if x.id = id then g else x) }

/-- The command name of every invocation. -/
def gooseCmd : Str := ("goose").data

/-- Argument literals used when building invocations. -/
def argRun : Str := ("run").data

/-- Literal `-s` (interactive mode). -/
def argS : Str := ("-s").data

/-- Literal `-n` (named session). -/
def argN : Str := ("-n").data

/-- Literal `-r` (resume). -/
def argR : Str := ("-r").data

/-- Literal `--text`. -/
def argText : Str := ("--text").data

/-- Source line 139: the launch-time amendment prepended to the prompt.  The
amended prompt is passed to the spawned process but never stored. -/
def interactivePromptPreamble : Str :=
  ("I\x27ll be sending you multiple prompts in this session. Please respond to each one as they come.\n\nYour first task: ").data

/-- The amended prompt handed to `--text` on a fresh start. -/
def interactivePromptOf (prompt : Str) : Str :=
  interactivePromptPreamble ++ prompt

/-- Source line 125: `gosling-${id.substring(0, 8)}`. -/
def sessionNameOf (id : Str) : Str :=
  ("gosling-").data ++ id.take 8

/-- Arguments of a fresh-start invocation (source lines 130-140). -/
def freshArgs (id : Str) (options : List Str) (prompt : Str) : List Str :=
  [argRun, argS, argN, sessionNameOf id] ++ options ++ [argText, interactivePromptOf prompt]

/-- Arguments of a resume invocation (source line 292). -/
def resumeArgsOf (sessionName : Str) (followUpPrompt : Str) : List Str :=
  [argRun, argS, argN, sessionName, argR, argText, followUpPrompt]

/-- Error message thrown when the active-session ceiling is reached
(source line 113). -/
def maxActiveMsg (n : Nat) : Str :=
  ("Circuit breaker triggered: Maximum number of active goslings (").data
    ++ (toString n).data ++ (") reached").data

/-- Error message thrown when the total-session ceiling is reached
(source line 118). -/
def maxTotalMsg (n : Nat) : Str :=
  ("Circuit breaker triggered: Maximum number of total goslings (").data
    ++ (toString n).data ++ (") reached").data

/-- The freshly built session record (source lines 167-183).  The original
prompt is stored, not the amended one. -/
def createdGosling (id : Str) (prompt : Str) (options : List Str)
    (proc : ProcessModel) (timestamp : Int) : Gosling :=
  { id := id
    prompt := prompt
    options := options
    process := proc
    status := .running
    output := []
    error := []
    startTime := timestamp
    endTime := none
    promptHistory := [⟨prompt, timestamp⟩]
    outputLineCount := 0
    sessionName := sessionNameOf id
    lastOutputTime := timestamp
    outputSize := 0
    promptCount := 1 }

instance : DecidableEq (Except Str Gosling) := fun a b =>
  match a, b with
  | .error x, .error y =>
    if h : x = y then .isTrue (by rw [h]) else .isFalse (by simp [h])
  | .ok x, .ok y =>
    if h : x = y then .isTrue (by rw [h]) else .isFalse (by simp [h])
  | .error _, .ok _ => .isFalse (by simp)
  | .ok _, .error _ => .isFalse (by simp)

/-- Outcome of `runGoose`: the thrown-or-returned result, the new manager
state, and the list of invocations handed to `spawn` during the call. -/
structure RunGooseResult where
  result : Except Str Gosling
  state : ManagerState
  spawned : List SpawnInvocation
  deriving DecidableEq

/-- Source `runGoose` (lines 105-251).  The nondeterministic ingredients
(`randomUUID`, `new Date()`, the OS process handle) are passed in as
parameters `id`, `timestamp`, `proc`. -/
def runGoose (st : ManagerState) (prompt : Str) (options : List Str)
    (id : Str) (timestamp : Int) (proc : ProcessModel) : RunGooseResult :=
  if st.circuitBreaker.enabled ∧
      st.circuitBreaker.maxActiveGoslings ≤ activeCount st then
    { result := .error (maxActiveMsg st.circuitBreaker.maxActiveGoslings)
      state := st
      spawned := [] }
  else if st.circuitBreaker.enabled ∧
      st.circuitBreaker.maxTotalGoslings ≤ st.goslings.length then
    { result := .error (maxTotalMsg st.circuitBreaker.maxTotalGoslings)
      state := st
      spawned := [] }
  else
    let g := createdGosling id prompt options proc timestamp
    { result := .ok g
      state := { st with goslings := st.goslings ++ [g] }
      spawned := [⟨gooseCmd, freshArgs id options prompt⟩] }

/-- Record-level effect of `terminateGosling` on the found record
(source lines 649-653).  The `kill` signal itself is not modelled. -/
def terminateRecord (g : Gosling) (now : Int) : Gosling :=
  if g.status = .running then
    { g with status := .completed, endTime := some now }
  else g

/-- Source `terminateGosling` (lines 643-656). -/
def terminateGosling (st : ManagerState) (id : Str) (now : Int) :
    Bool × ManagerState :=
  match getGosling st id with
  | none => (false, st)
  | some g => (true, updateGosling st id (terminateRecord g now))

/-- Source: `text.split('\n').length - 1` (lines 215-216 and 343-344). -/
def countNewLines (text : Str) : Nat :=
  (text.splitOn nl).length - 1

/-- The stdout handler bound to a session's process.  The handler installed
at creation (lines 189-217) and the one installed on resume (lines 317-345)
are textually identical; this is that common body, acting on the session
record (the closure mutates the shared record, and `terminateGosling(id)`
resolves to the same record). -/
def handleStdoutRecord (cb : CircuitBreakerConfig) (g : Gosling)
    (text : Str) (now : Int) : Gosling :=
  if cb.enabled ∧ cb.maxOutputSizeBytes < g.outputSize + text.length then
    let remaining : Int := (cb.maxOutputSizeBytes : Int) - (g.outputSize : Int)
    let g1 :=
      if 0 < remaining then
        { g with output := g.output ++ text.take remaining.toNat
                 outputSize := g.outputSize + remaining.toNat }
      else g
    terminateRecord g1 now
  else
    { g with output := g.output ++ text
             lastOutputTime := now
             outputSize := g.outputSize + text.length
             outputLineCount := g.outputLineCount + countNewLines text }

/-- Environment of one `sendPromptToGosling` call: what `spawn` would return
for a resume attempt (`none` = the spawn call throws), and the clock. -/
structure SendEnv where
  resumeSpawn : Option ProcessModel
  now : Int
  deriving DecidableEq

/-- Outcome of `sendPromptToGosling`: the boolean result, the new manager
state, and the invocations handed to `spawn` during the call. -/
structure SendResult where
  ok : Bool
  state : ManagerState
  spawned : List SpawnInvocation
  deriving DecidableEq

/-- The tail of `sendPromptToGosling` after the resume phase (source lines
383-410): the stdin writability check, the stdin write, and — only on a
successful write — the history push and the count increment.  `g1` is the
session record as it stands after the resume phase, `sp` the invocations
spawned so far during the call. -/
def writePhase (st : ManagerState) (id : Str) (followUpPrompt : Str)
    (now : Int) (g1 : Gosling) (sp : List SpawnInvocation) : SendResult :=
  if g1.process.stdinWritable = false then
    ⟨false, updateGosling st id g1, sp⟩
  else if g1.process.writeSucceeds then
    ⟨true, updateGosling st id
      { g1 with
        promptHistory := g1.promptHistory ++ [⟨followUpPrompt, now⟩]
        promptCount := g1.promptCount + 1 },
      sp⟩
  else
    ⟨false, updateGosling st id g1, sp⟩

/-- Body of `sendPromptToGosling` once the record has been found.  Branch
order follows the source: prompt ceiling (lines 278-282), resume of a
non-running session (lines 285-381; the spawn may throw, in which case the
record is untouched, because the throw happens before any mutation), then
the write phase. -/
def sendPromptBody (st : ManagerState) (id : Str) (followUpPrompt : Str)
    (env : SendEnv) (g : Gosling) : SendResult :=
  if st.circuitBreaker.enabled ∧
      st.circuitBreaker.maxPromptsPerGosling ≤ g.promptCount then
    ⟨false, st, []⟩
  else if g.status = .running then
    writePhase st id followUpPrompt env.now g []
  else
    let inv : SpawnInvocation :=
      ⟨gooseCmd, resumeArgsOf g.sessionName followUpPrompt⟩
    match env.resumeSpawn with
    | none => ⟨false, st, [inv]⟩
    | some proc =>
      writePhase st id followUpPrompt env.now
        { g with process := proc, status := .running, endTime := none } [inv]

/-- Source `sendPromptToGosling` (lines 271-411). -/
def sendPromptToGosling (st : ManagerState) (id : Str) (followUpPrompt : Str)
    (env : SendEnv) : SendResult :=
  match getGosling st id with
  | none => ⟨false, st, []⟩
  | some g => sendPromptBody st id followUpPrompt env g

/-- Pagination metadata (source: return type of `getGoslingOutput`). -/
structure OutputMetadata where
  totalLines : Nat
  startLine : Int
  endLine : Int
  hasMore : Bool
  deriving DecidableEq

/-- Return value of `getGoslingOutput`. -/
structure OutputPage where
  text : Str
  metadata : OutputMetadata
  deriving DecidableEq

/-- Body of `getGoslingOutput` once the record has been found (source lines
431-467).  `offset` and `limit` are JS numbers that may be negative, hence
`Int`.  `Array.prototype.slice(a, b)` is `(take b).drop a`. -/
def paginateImpl (output : Str) (outputLineCount : Nat) (offset : Int)
    (limit : Int) (fullOutput : Bool) : OutputPage :=
  if fullOutput then
    ⟨output, ⟨outputLineCount, 0, (outputLineCount : Int), false⟩⟩
  else
    let lines := output.splitOn nl
    let offset1 : Int := if offset < 0 then 0 else offset
    let offset2 : Int :=
      if (lines.length : Int) ≤ offset1 then
        max 0 ((lines.length : Int) - 1)
      else offset1
    let limit1 : Int := if limit ≤ 0 then 100 else limit
    let endIndex : Int := min (offset2 + limit1) (lines.length : Int)
    let requestedLines := (lines.take endIndex.toNat).drop offset2.toNat
    ⟨List.intercalate [nl] requestedLines,
      ⟨lines.length, offset2, endIndex,
        decide (endIndex < (lines.length : Int))⟩⟩

/-- Source `getGoslingOutput` (lines 416-468). -/
def getGoslingOutput (st : ManagerState) (id : Str) (offset : Int)
    (limit : Int) (fullOutput : Bool) : Option OutputPage :=
  match getGosling st id with
  | none => none
  | some g =>
    some (paginateImpl g.output g.outputLineCount offset limit fullOutput)

/-- Return value of `getGoslingActivityStatus`. -/
structure ActivityInfo where
  status : ActivityStatus
  idleTimeMs : Option Int
  deriving DecidableEq

/-- Source `getGoslingActivityStatus` (lines 477-505).  `now` is the value
of `new Date().getTime()` at the moment of the call. -/
def getGoslingActivityStatus (st : ManagerState) (id : Str) (now : Int)
    (idleThresholdMs : Int) : Option ActivityInfo :=
  match getGosling st id with
  | none => none
  | some g =>
    if g.status ≠ .running then
      some ⟨.IDLE, none⟩
    else
      let timeSinceLastOutput := now - g.lastOutputTime
      if timeSinceLastOutput < idleThresholdMs then
        some ⟨.WORKING, none⟩
      else
        some ⟨.IDLE, some timeSinceLastOutput⟩

/-- The events that mutate a session record after its creation, each taken
from a handler or operation in the source: the stdout handler (lines
189-217 and 317-345), the stderr handler (lines 220-222 and 347-349), the
exit handler (lines 225-229 and 351-355), the process-error handler (lines
232-236 and 357-361), the record mutation of a successful resume (lines
309-314), the history push of an accepted prompt (lines 400-404), and
termination (lines 649-653). -/
inductive GEvent
  | stdoutData (text : Str) (now : Int)
  | stderrData (text : Str)
  | exited (code : Int) (now : Int)
  | procErrored (msg : Str)
  | resumed (proc : ProcessModel)
  | promptAccepted (p : Str) (now : Int)
  | terminated (now : Int)

/-- Effect of one event on the session record. -/
def applyEvent (cb : CircuitBreakerConfig) (e : GEvent) (g : Gosling) : Gosling :=
  match e with
  | .stdoutData text now => handleStdoutRecord cb g text now
  | .stderrData text => { g with error := g.error ++ text }
  | .exited code now =>
    { g with endTime := some now
             status := if code = 0 then .completed else .error }
  | .procErrored msg => { g with error := g.error ++ msg, status := .error }
  | .resumed proc =>
    { g with process := proc, status := .running, endTime := none }
  | .promptAccepted p now =>
    { g with promptHistory := g.promptHistory ++ [⟨p, now⟩]
             promptCount := g.promptCount + 1 }
  | .terminated now => terminateRecord g now

/-- Iterated `sendPromptToGosling` calls against a fixed id, prompt and
environment, threading the manager state. -/
def sendIter (id : Str) (p : Str) (env : SendEnv) :
    Nat → ManagerState → ManagerState
  | 0, st => st
  | n + 1, st => sendIter id p env n (sendPromptToGosling st id p env).state

/-- A fully permissive environment: resume spawns succeed and stdin accepts
writes. -/
def envOk (now : Int) : SendEnv := ⟨some ⟨true, true⟩, now⟩

/-- Line view of a string, as computed by the source (`split('\n')`). -/
def linesOf (s : Str) : List Str := s.splitOn nl

/-- The invariant that `outputSize` always equals the length of `output`. -/
def sizeInvariant (g : Gosling) : Prop :=
  g.outputSize = g.output.length

instance (g : Gosling) : Decidable (sizeInvariant g) :=
  inferInstanceAs (Decidable (g.outputSize = g.output.length))

lemma getGosling_id (st : ManagerState) (id : Str) (g : Gosling)
    (h : getGosling st id = some g) : g.id = id := by
  have := List.find?_some h
  simpa using this

lemma find?_map_update (l : List Gosling) (id : Str) (g g' : Gosling)
    (h : l.find? (fun x => x.id == id) = some g) (hid : g'.id = id) :
    (l.map (fun x => if x.id = id then g' else x)).find?
      (fun x => x.id == id) = some g' := by
  induction l with
  | nil => simp at h
  | cons a l ih =>
    by_cases ha : a.id = id
    · simp only [List.map_cons, if_pos ha]
      exact List.find?_cons_of_pos _ (by simpa using hid)
    · rw [List.find?_cons_of_neg _ (by simpa using ha)] at h
      simp only [List.map_cons, if_neg ha]
      rw [List.find?_cons_of_neg _ (by simpa using ha)]
      exact ih h

lemma getGosling_updateGosling (st : ManagerState) (id : Str) (g g' : Gosling)
    (h : getGosling st id = some g) (hid : g'.id = id) :
    getGosling (updateGosling st id g') id = some g' :=
  find?_map_update st.goslings id g g' h hid

lemma filter_running_map_update_le (l : List Gosling) (id : Str) (g' : Gosling)
    (hg' : g'.status.isRunning = false) :
    ((l.map (fun x => if x.id = id then g' else x)).filter
        (fun x => x.status.isRunning)).length
      ≤ (l.filter (fun x => x.status.isRunning)).length := by
  induction l with
  | nil => simp
  | cons a l ih =>
    simp only [List.map_cons]
    by_cases ha : a.id = id
    · rw [if_pos ha, List.filter_cons_of_neg (by simp [hg'])]
      cases h : a.status.isRunning
      · rw [List.filter_cons_of_neg (by simp [h])]
        exact ih
      · rw [List.filter_cons_of_pos (by simp [h])]
        simp only [List.length_cons]
        omega
    · rw [if_neg ha]
      cases h : a.status.isRunning
      · rw [List.filter_cons_of_neg (by simp [h]),
          List.filter_cons_of_neg (by simp [h])]
        exact ih
      · rw [List.filter_cons_of_pos (by simp [h]),
          List.filter_cons_of_pos (by simp [h])]
        simp only [List.length_cons]
        omega

lemma filter_running_map_update_lt (l : List Gosling) (id : Str)
    (g g' : Gosling) (hfind : l.find? (fun x => x.id == id) = some g)
    (hrun : g.status.isRunning = true) (hg' : g'.status.isRunning = false) :
    ((l.map (fun x => if x.id = id then g' else x)).filter
        (fun x => x.status.isRunning)).length
      < (l.filter (fun x => x.status.isRunning)).length := by
  induction l with
  | nil => simp at hfind
  | cons a l ih =>
    by_cases ha : a.id = id
    · rw [List.find?_cons_of_pos _ (by simpa using ha)] at hfind
      have hag : a = g := by injection hfind
      subst hag
      simp only [List.map_cons, if_pos ha]
      rw [List.filter_cons_of_neg (by simp [hg']),
        List.filter_cons_of_pos (by simp [hrun])]
      have := filter_running_map_update_le l id g' hg'
      simp only [List.length_cons]
      omega
    · rw [List.find?_cons_of_neg _ (by simpa using ha)] at hfind
      have := ih hfind
      simp only [List.map_cons, if_neg ha]
      cases h : a.status.isRunning
      · rw [List.filter_cons_of_neg (by simp [h]),
          List.filter_cons_of_neg (by simp [h])]
        exact this
      · rw [List.filter_cons_of_pos (by simp [h]),
          List.filter_cons_of_pos (by simp [h])]
        simp only [List.length_cons]
        omega

lemma splitOn_ne_nil (c : Char) (s : Str) : s.splitOn c ≠ [] := by
  simpa [List.splitOn] using List.splitOnP_ne_nil (fun x => x == c) s

lemma not_mem_splitOn (c : Char) (s : Str) :
    ∀ l ∈ s.splitOn c, c ∉ l := by
  induction s with
  | nil =>
    intro l hl
    simp only [List.splitOn_nil, List.mem_singleton] at hl
    subst hl
    simp
  | cons a s ih =>
    intro l hl
    simp only [List.splitOn] at hl ih
    rw [List.splitOnP_cons] at hl
    by_cases hac : a = c
    · rw [if_pos (by simpa using hac)] at hl
      rcases List.mem_cons.mp hl with h | h
      · subst h; simp
      · exact ih l h
    · rw [if_neg (by simpa using hac)] at hl
      obtain ⟨hd, tl, heq⟩ :=
        List.exists_cons_of_ne_nil (List.splitOnP_ne_nil (fun x => x == c) s)
      rw [heq] at hl
      simp only [List.modifyHead] at hl
      rcases List.mem_cons.mp hl with h | h
      · subst h
        intro hmem
        rcases List.mem_cons.mp hmem with h' | h'
        · exact hac h'.symm
        · exact ih hd (heq ▸ List.mem_cons_self hd tl) h'
      · exact ih l (heq ▸ List.mem_cons_of_mem hd h)

lemma terminateRecord_output (g : Gosling) (now : Int) :
    (terminateRecord g now).output = g.output := by
  unfold terminateRecord
  split <;> rfl

lemma terminateRecord_outputSize (g : Gosling) (now : Int) :
    (terminateRecord g now).outputSize = g.outputSize := by
  unfold terminateRecord
  split <;> rfl

lemma terminateRecord_outputLineCount (g : Gosling) (now : Int) :
    (terminateRecord g now).outputLineCount = g.outputLineCount := by
  unfold terminateRecord
  split <;> rfl

lemma terminateRecord_status_of_running (g : Gosling) (now : Int)
    (h : g.status = .running) :
    (terminateRecord g now).status = .completed := by
  unfold terminateRecord
  rw [if_pos h]

/-- Claim C1: for a running session with the circuit breaker enabled, when
an output chunk arrives whose length added to the current `outputSize`
exceeds `maxOutputSizeBytes`, the append is truncated to exactly the
remaining budget, so that afterwards `outputSize` equals
`maxOutputSizeBytes` exactly, and the session is force-terminated so that
its status is `completed`. -/
theorem C1_output_ceiling (cb : CircuitBreakerConfig) (g : Gosling)
    (text : Str) (now : Int)
    (henabled : cb.enabled = true) (hrun : g.status = .running)
    (hle : g.outputSize ≤ cb.maxOutputSizeBytes)
    (hover : cb.maxOutputSizeBytes < g.outputSize + text.length) :
    (handleStdoutRecord cb g text now).output
        = g.output ++ text.take (cb.maxOutputSizeBytes - g.outputSize) ∧
    (handleStdoutRecord cb g text now).outputSize = cb.maxOutputSizeBytes ∧
    (handleStdoutRecord cb g text now).status = .completed := by
  have hcond : (cb.enabled = true) ∧
      cb.maxOutputSizeBytes < g.outputSize + text.length := ⟨henabled, hover⟩
  simp only [handleStdoutRecord]
  rw [if_pos hcond]
  by_cases hlt : g.outputSize < cb.maxOutputSizeBytes
  · have hpos : (0 : Int) <
        (cb.maxOutputSizeBytes : Int) - (g.outputSize : Int) := by omega
    rw [if_pos hpos]
    have htn : ((cb.maxOutputSizeBytes : Int) - (g.outputSize : Int)).toNat
        = cb.maxOutputSizeBytes - g.outputSize := by omega
    refine ⟨?_, ?_, ?_⟩
    · rw [terminateRecord_output, htn]
    · rw [terminateRecord_outputSize]
      simp only []
      omega
    · exact terminateRecord_status_of_running _ now hrun
  · have heq : g.outputSize = cb.maxOutputSizeBytes := by omega
    have hneg : ¬ ((0 : Int) <
        (cb.maxOutputSizeBytes : Int) - (g.outputSize : Int)) := by omega
    rw [if_neg hneg]
    refine ⟨?_, ?_, ?_⟩
    · rw [terminateRecord_output, heq]
      simp
    · rw [terminateRecord_outputSize, heq]
    · exact terminateRecord_status_of_running _ now hrun

/-- Claim C6: a freshly created session satisfies `outputSize = |output|`,
and every session-mutating event preserves that invariant while only ever
growing `output`, `outputSize` and `outputLineCount`. -/
theorem C6_output_size_invariant :
    (∀ id prompt options proc ts,
      sizeInvariant (createdGosling id prompt options proc ts)) ∧
    (∀ cb e g, sizeInvariant g →
      sizeInvariant (applyEvent cb e g) ∧
      (∃ t, g.output ++ t = (applyEvent cb e g).output) ∧
      g.outputSize ≤ (applyEvent cb e g).outputSize ∧
      g.outputLineCount ≤ (applyEvent cb e g).outputLineCount) := by
  constructor
  · intro id prompt options proc ts
    simp [sizeInvariant, createdGosling]
  · intro cb e g hinv
    cases e with
    | stdoutData text now =>
      simp only [applyEvent, handleStdoutRecord]
      by_cases hcond : (cb.enabled = true) ∧
          cb.maxOutputSizeBytes < g.outputSize + text.length
      · rw [if_pos hcond]
        by_cases hpos : (0 : Int) <
            (cb.maxOutputSizeBytes : Int) - (g.outputSize : Int)
        · rw [if_pos hpos]
          refine ⟨?_, ?_, ?_, ?_⟩
          · simp only [sizeInvariant, terminateRecord_outputSize,
              terminateRecord_output, List.length_append, List.length_take]
            simp only [sizeInvariant] at hinv
            omega
          · rw [terminateRecord_output]
            exact ⟨_, rfl⟩
          · rw [terminateRecord_outputSize]
            simp only []
            omega
          · rw [terminateRecord_outputLineCount]
        · rw [if_neg hpos]
          refine ⟨?_, ⟨[], by simp [terminateRecord_output]⟩, ?_, ?_⟩
          · simp only [sizeInvariant, terminateRecord_outputSize,
              terminateRecord_output]
            exact hinv
          · rw [terminateRecord_outputSize]
          · rw [terminateRecord_outputLineCount]
      · rw [if_neg hcond]
        refine ⟨?_, ⟨text, rfl⟩, ?_, ?_⟩
        · simp only [sizeInvariant] at hinv ⊢
          simp [hinv]
        · simp
        · simp
    | stderrData text =>
      exact ⟨hinv, ⟨[], by simp [applyEvent]⟩, le_refl _, le_refl _⟩
    | exited code now =>
      exact ⟨hinv, ⟨[], by simp [applyEvent]⟩, le_refl _, le_refl _⟩
    | procErrored msg =>
      exact ⟨hinv, ⟨[], by simp [applyEvent]⟩, le_refl _, le_refl _⟩
    | resumed proc =>
      exact ⟨hinv, ⟨[], by simp [applyEvent]⟩, le_refl _, le_refl _⟩
    | promptAccepted p now =>
      exact ⟨hinv, ⟨[], by simp [applyEvent]⟩, le_refl _, le_refl _⟩
    | terminated now =>
      refine ⟨?_, ⟨[], by simp [applyEvent, terminateRecord_output]⟩, ?_, ?_⟩
      · simp only [sizeInvariant, applyEvent, terminateRecord_outputSize,
          terminateRecord_output]
        exact hinv
      · simp [applyEvent, terminateRecord_outputSize]
      · simp [applyEvent, terminateRecord_outputLineCount]

/-- Claim C7: the activity classification of a registered session is a
function of the session state and the clock: a non-running session is
`IDLE` with no idle time reported; a running session with output newer than
the threshold is `WORKING`; otherwise it is `IDLE` with
`idleTimeMs = now - lastOutputTime`. -/
theorem C7_activity_classification (st : ManagerState) (id : Str)
    (now threshold : Int) (g : Gosling) (hfind : getGosling st id = some g) :
    (g.status ≠ .running →
      getGoslingActivityStatus st id now threshold = some ⟨.IDLE, none⟩) ∧
    (g.status = .running → now - g.lastOutputTime < threshold →
      getGoslingActivityStatus st id now threshold = some ⟨.WORKING, none⟩) ∧
    (g.status = .running → threshold ≤ now - g.lastOutputTime →
      getGoslingActivityStatus st id now threshold
        = some ⟨.IDLE, some (now - g.lastOutputTime)⟩) := by
  have hred : getGoslingActivityStatus st id now threshold =
      (if g.status ≠ GStatus.running then some ⟨.IDLE, none⟩
       else if now - g.lastOutputTime < threshold then some ⟨.WORKING, none⟩
       else some ⟨.IDLE, some (now - g.lastOutputTime)⟩) := by
    unfold getGoslingActivityStatus
    rw [hfind]
  refine ⟨?_, ?_, ?_⟩ <;> rw [hred]
  · intro hne
    rw [if_pos hne]
  · intro hrun hlt
    rw [if_neg (by simp [hrun]), if_pos hlt]
  · intro hrun hge
    rw [if_neg (by simp [hrun]), if_neg (by omega)]

lemma sendPrompt_notfound (st : ManagerState) (id : Str) (p : Str)
    (env : SendEnv) (h : getGosling st id = none) :
    sendPromptToGosling st id p env = ⟨false, st, []⟩ := by
  unfold sendPromptToGosling
  rw [h]

lemma sendPrompt_found (st : ManagerState) (id : Str) (p : Str)
    (env : SendEnv) (g : Gosling) (h : getGosling st id = some g) :
    sendPromptToGosling st id p env = sendPromptBody st id p env g := by
  unfold sendPromptToGosling
  rw [h]

lemma sendPromptBody_ceiling (st : ManagerState) (id : Str) (p : Str)
    (env : SendEnv) (g : Gosling)
    (h : st.circuitBreaker.enabled = true ∧
      st.circuitBreaker.maxPromptsPerGosling ≤ g.promptCount) :
    sendPromptBody st id p env g = ⟨false, st, []⟩ := by
  unfold sendPromptBody
  rw [if_pos h]

lemma sendPromptBody_running (st : ManagerState) (id : Str) (p : Str)
    (env : SendEnv) (g : Gosling)
    (hnc : ¬ (st.circuitBreaker.enabled = true ∧
      st.circuitBreaker.maxPromptsPerGosling ≤ g.promptCount))
    (hrun : g.status = .running) :
    sendPromptBody st id p env g = writePhase st id p env.now g [] := by
  unfold sendPromptBody
  rw [if_neg hnc, if_pos hrun]

lemma sendPromptBody_resume_throw (st : ManagerState) (id : Str) (p : Str)
    (env : SendEnv) (g : Gosling)
    (hnc : ¬ (st.circuitBreaker.enabled = true ∧
      st.circuitBreaker.maxPromptsPerGosling ≤ g.promptCount))
    (hterm : g.status ≠ .running) (hrs : env.resumeSpawn = none) :
    sendPromptBody st id p env g =
      ⟨false, st, [⟨gooseCmd, resumeArgsOf g.sessionName p⟩]⟩ := by
  unfold sendPromptBody
  rw [if_neg hnc, if_neg hterm, hrs]

lemma sendPromptBody_resume_spawned (st : ManagerState) (id : Str) (p : Str)
    (env : SendEnv) (g : Gosling) (proc : ProcessModel)
    (hnc : ¬ (st.circuitBreaker.enabled = true ∧
      st.circuitBreaker.maxPromptsPerGosling ≤ g.promptCount))
    (hterm : g.status ≠ .running) (hrs : env.resumeSpawn = some proc) :
    sendPromptBody st id p env g =
      writePhase st id p env.now
        { g with process := proc, status := .running, endTime := none }
        [⟨gooseCmd, resumeArgsOf g.sessionName p⟩] := by
  unfold sendPromptBody
  rw [if_neg hnc, if_neg hterm, hrs]

/-- Claim C4: a successful `sendPrompt` on a registered session with
terminal status resumes it in place: same `id`, same original prompt, the
prior history preserved with the new prompt appended last, `promptCount`
incremented by exactly one, status back to `running`, and `endTime`
cleared. -/
theorem C4_resume_preserves_identity (st : ManagerState) (id : Str) (p : Str)
    (env : SendEnv) (g : Gosling)
    (hfind : getGosling st id = some g) (hterm : g.status ≠ .running)
    (hok : (sendPromptToGosling st id p env).ok = true) :
    ∃ g', getGosling (sendPromptToGosling st id p env).state id = some g' ∧
      g'.id = g.id ∧ g'.prompt = g.prompt ∧
      g'.promptHistory = g.promptHistory ++ [⟨p, env.now⟩] ∧
      g'.promptCount = g.promptCount + 1 ∧
      g'.status = .running ∧ g'.endTime = none := by
  rw [sendPrompt_found st id p env g hfind] at hok ⊢
  by_cases hceil : st.circuitBreaker.enabled = true ∧
      st.circuitBreaker.maxPromptsPerGosling ≤ g.promptCount
  · rw [sendPromptBody_ceiling st id p env g hceil] at hok
    simp at hok
  · cases hrs : env.resumeSpawn with
    | none =>
      rw [sendPromptBody_resume_throw st id p env g hceil hterm hrs] at hok
      simp at hok
    | some proc =>
      rw [sendPromptBody_resume_spawned st id p env g proc hceil hterm hrs]
        at hok ⊢
      unfold writePhase at hok ⊢
      by_cases hw : proc.stdinWritable = false
      · rw [if_pos hw] at hok
        simp at hok
      · rw [if_neg hw] at hok ⊢
        by_cases hws : proc.writeSucceeds = true
        · rw [if_pos hws] at hok ⊢
          refine ⟨_, getGosling_updateGosling st id g _ hfind
            (getGosling_id st id g hfind), rfl, rfl, rfl, rfl, rfl, rfl⟩
        · rw [if_neg hws] at hok
          simp at hok

/-- Claim C10: whenever `sendPromptToGosling` returns `false` — unknown id,
prompt ceiling, resume spawn throw, unwritable stdin, or failed write — the
session's `promptHistory` and `promptCount` are unchanged by the call. -/
theorem C10_failure_preserves_prompts (st : ManagerState) (id : Str)
    (p : Str) (env : SendEnv)
    (hfail : (sendPromptToGosling st id p env).ok = false) :
    (getGosling st id = none → (sendPromptToGosling st id p env).state = st) ∧
    (∀ g, getGosling st id = some g →
      ∃ g', getGosling (sendPromptToGosling st id p env).state id = some g' ∧
        g'.promptHistory = g.promptHistory ∧
        g'.promptCount = g.promptCount) := by
  constructor
  · intro hn
    rw [sendPrompt_notfound st id p env hn]
  · intro g hfind
    have hid := getGosling_id st id g hfind
    rw [sendPrompt_found st id p env g hfind] at hfail ⊢
    by_cases hceil : st.circuitBreaker.enabled = true ∧
        st.circuitBreaker.maxPromptsPerGosling ≤ g.promptCount
    · rw [sendPromptBody_ceiling st id p env g hceil]
      exact ⟨g, hfind, rfl, rfl⟩
    · by_cases hrun : g.status = .running
      · rw [sendPromptBody_running st id p env g hceil hrun] at hfail ⊢
        unfold writePhase at hfail ⊢
        by_cases hw : g.process.stdinWritable = false
        · rw [if_pos hw]
          exact ⟨g, getGosling_updateGosling st id g g hfind hid, rfl, rfl⟩
        · rw [if_neg hw] at hfail ⊢
          by_cases hws : g.process.writeSucceeds = true
          · rw [if_pos hws] at hfail
            simp at hfail
          · rw [if_neg hws]
            exact ⟨g, getGosling_updateGosling st id g g hfind hid, rfl, rfl⟩
      · cases hrs : env.resumeSpawn with
        | none =>
          rw [sendPromptBody_resume_throw st id p env g hceil hrun hrs]
          exact ⟨g, hfind, rfl, rfl⟩
        | some proc =>
          rw [sendPromptBody_resume_spawned st id p env g proc hceil hrun hrs]
            at hfail ⊢
          unfold writePhase at hfail ⊢
          by_cases hw : proc.stdinWritable = false
          · rw [if_pos hw]
            exact ⟨_, getGosling_updateGosling st id g _ hfind hid, rfl, rfl⟩
          · rw [if_neg hw] at hfail ⊢
            by_cases hws : proc.writeSucceeds = true
            · rw [if_pos hws] at hfail
              simp at hfail
            · rw [if_neg hws]
              exact ⟨_, getGosling_updateGosling st id g _ hfind hid, rfl, rfl⟩

lemma sendPrompt_at_ceiling (st : ManagerState) (id : Str) (p : Str)
    (env : SendEnv) (g : Gosling) (hfind : getGosling st id = some g)
    (henabled : st.circuitBreaker.enabled = true)
    (hge : st.circuitBreaker.maxPromptsPerGosling ≤ g.promptCount) :
    sendPromptToGosling st id p env = ⟨false, st, []⟩ := by
  rw [sendPrompt_found st id p env g hfind]
  exact sendPromptBody_ceiling st id p env g ⟨henabled, hge⟩

lemma sendPrompt_happy (st : ManagerState) (id : Str) (p : Str) (now : Int)
    (g : Gosling) (hfind : getGosling st id = some g)
    (hnc : ¬ (st.circuitBreaker.enabled = true ∧
      st.circuitBreaker.maxPromptsPerGosling ≤ g.promptCount))
    (hrun : g.status = .running) (hproc : g.process = ⟨true, true⟩) :
    sendPromptToGosling st id p (envOk now) =
      ⟨true,
        updateGosling st id
          { g with promptHistory := g.promptHistory ++ [⟨p, now⟩]
                   promptCount := g.promptCount + 1 },
        []⟩ := by
  rw [sendPrompt_found st id p (envOk now) g hfind,
    sendPromptBody_running st id p (envOk now) g hnc hrun]
  unfold writePhase
  rw [if_neg (by rw [hproc]; simp), if_pos (by rw [hproc])]
  rfl

lemma sendIter_invariant (cb : CircuitBreakerConfig)
    (henabled : cb.enabled = true) (id p : Str) (now : Int) :
    ∀ (k : Nat) (st : ManagerState) (g : Gosling),
      st.circuitBreaker = cb →
      getGosling st id = some g →
      g.status = .running → g.process = ⟨true, true⟩ →
      1 ≤ g.promptCount →
      g.promptCount ≤ cb.maxPromptsPerGosling →
      ∃ g', getGosling (sendIter id p (envOk now) k st) id = some g' ∧
        (sendIter id p (envOk now) k st).circuitBreaker = cb ∧
        g'.status = .running ∧ g'.process = ⟨true, true⟩ ∧
        g'.promptCount = min (g.promptCount + k) cb.maxPromptsPerGosling := by
  intro k
  induction k with
  | zero =>
    intro st g h1 h2 h3 h4 h5 h6
    exact ⟨g, h2, h1, h3, h4, by omega⟩
  | succ k ih =>
    intro st g h1 h2 h3 h4 h5 h6
    simp only [sendIter]
    by_cases hge : cb.maxPromptsPerGosling ≤ g.promptCount
    · rw [sendPrompt_at_ceiling st id p (envOk now) g h2 (by rw [h1]; exact henabled)
        (by rw [h1]; exact hge)]
      obtain ⟨g', hf, hcb, hst, hpr, hcount⟩ := ih st g h1 h2 h3 h4 h5 h6
      exact ⟨g', hf, hcb, hst, hpr, by omega⟩
    · have hid := getGosling_id st id g h2
      rw [sendPrompt_happy st id p now g h2
        (by intro hc; exact hge (h1 ▸ hc.2)) h3 h4]
      obtain ⟨g', hf, hcb, hst, hpr, hcount⟩ :=
        ih (updateGosling st id
            { g with promptHistory := g.promptHistory ++ [⟨p, now⟩]
                     promptCount := g.promptCount + 1 })
          { g with promptHistory := g.promptHistory ++ [⟨p, now⟩]
                   promptCount := g.promptCount + 1 }
          h1 (getGosling_updateGosling st id g _ h2 hid) h3 h4
          (by simp) (by simp only []; omega)
      exact ⟨g', hf, hcb, hst, hpr, by simp only [] at hcount; omega⟩

/-- Initial manager state for the prompt-ceiling scenario: a single session
freshly created from one initial prompt, with a fully functional process. -/
def c3Start (cb : CircuitBreakerConfig) (id prompt : Str)
    (options : List Str) (ts : Int) : ManagerState :=
  ⟨[createdGosling id prompt options ⟨true, true⟩ ts], cb⟩

/-- Claim C3: for a session created with one initial prompt under an enabled
circuit breaker, the `(maxPromptsPerGosling + 1)`-th `sendPrompt` call
returns `false` without attempting any spawn and without touching the
state; moreover the ceiling check runs before any resume attempt, so any
registered session at the ceiling — including one with terminal status —
is rejected with no spawn and no state change. -/
theorem C3_prompt_ceiling (cb : CircuitBreakerConfig) (id prompt : Str)
    (options : List Str) (ts : Int) (p : Str) (now : Int)
    (henabled : cb.enabled = true) (hm : 1 ≤ cb.maxPromptsPerGosling) :
    (sendPromptToGosling
        (sendIter id p (envOk now) cb.maxPromptsPerGosling
          (c3Start cb id prompt options ts))
        id p (envOk now)
      = ⟨false,
          sendIter id p (envOk now) cb.maxPromptsPerGosling
            (c3Start cb id prompt options ts),
          []⟩) ∧
    (∀ (st : ManagerState) (gid q : Str) (env : SendEnv) (g : Gosling),
      st.circuitBreaker.enabled = true → getGosling st gid = some g →
      st.circuitBreaker.maxPromptsPerGosling ≤ g.promptCount →
      sendPromptToGosling st gid q env = ⟨false, st, []⟩) := by
  constructor
  · have hfind0 : getGosling (c3Start cb id prompt options ts) id
        = some (createdGosling id prompt options ⟨true, true⟩ ts) := by
      unfold getGosling c3Start
      exact List.find?_cons_of_pos _ (by simp [createdGosling])
    obtain ⟨g', hf, hcb, hst, hpr, hcount⟩ :=
      sendIter_invariant cb henabled id p now cb.maxPromptsPerGosling
        (c3Start cb id prompt options ts)
        (createdGosling id prompt options ⟨true, true⟩ ts)
        rfl hfind0 rfl rfl (by simp [createdGosling]) (by simp [createdGosling]; omega)
    have hcount' : cb.maxPromptsPerGosling ≤ g'.promptCount := by
      simp [createdGosling] at hcount
      omega
    exact sendPrompt_at_ceiling _ id p (envOk now) g' hf
      (by rw [hcb]; exact henabled) (by rw [hcb]; exact hcount')
  · intro st gid q env g he hf hge
    exact sendPrompt_at_ceiling st gid q env g hf he hge

lemma maxActiveMsg_ne_maxTotalMsg (m n : Nat) :
    maxActiveMsg m ≠ maxTotalMsg n := by
  intro h
  have h45 := congrArg (fun l => l[45]?) h
  simp only [maxActiveMsg, maxTotalMsg] at h45
  have hpa : (45 : Nat) <
      (("Circuit breaker triggered: Maximum number of active goslings (").data).length := by
    decide
  have hpt : (45 : Nat) <
      (("Circuit breaker triggered: Maximum number of total goslings (").data).length := by
    decide
  have h1 : (45 : Nat) <
      ((("Circuit breaker triggered: Maximum number of active goslings (").data
        ++ (toString m).data)).length := by
    rw [List.length_append]
    omega
  have h2 : (45 : Nat) <
      ((("Circuit breaker triggered: Maximum number of total goslings (").data
        ++ (toString n).data)).length := by
    rw [List.length_append]
    omega
  rw [List.getElem?_append_left h1, List.getElem?_append_left hpa,
    List.getElem?_append_left h2, List.getElem?_append_left hpt] at h45
  exact absurd h45 (by decide)

lemma runGoose_reject_active (st : ManagerState) (prompt : Str)
    (options : List Str) (id : Str) (ts : Int) (proc : ProcessModel)
    (h : st.circuitBreaker.enabled = true ∧
      st.circuitBreaker.maxActiveGoslings ≤ activeCount st) :
    runGoose st prompt options id ts proc =
      ⟨.error (maxActiveMsg st.circuitBreaker.maxActiveGoslings), st, []⟩ := by
  unfold runGoose
  rw [if_pos h]

lemma runGoose_reject_total (st : ManagerState) (prompt : Str)
    (options : List Str) (id : Str) (ts : Int) (proc : ProcessModel)
    (hna : ¬ (st.circuitBreaker.enabled = true ∧
      st.circuitBreaker.maxActiveGoslings ≤ activeCount st))
    (h : st.circuitBreaker.enabled = true ∧
      st.circuitBreaker.maxTotalGoslings ≤ st.goslings.length) :
    runGoose st prompt options id ts proc =
      ⟨.error (maxTotalMsg st.circuitBreaker.maxTotalGoslings), st, []⟩ := by
  unfold runGoose
  rw [if_neg hna, if_pos h]

lemma runGoose_accept (st : ManagerState) (prompt : Str)
    (options : List Str) (id : Str) (ts : Int) (proc : ProcessModel)
    (hna : ¬ (st.circuitBreaker.enabled = true ∧
      st.circuitBreaker.maxActiveGoslings ≤ activeCount st))
    (hnt : ¬ (st.circuitBreaker.enabled = true ∧
      st.circuitBreaker.maxTotalGoslings ≤ st.goslings.length)) :
    runGoose st prompt options id ts proc =
      ⟨.ok (createdGosling id prompt options proc ts),
        { st with goslings :=
            st.goslings ++ [createdGosling id prompt options proc ts] },
        [⟨gooseCmd, freshArgs id options prompt⟩]⟩ := by
  unfold runGoose
  rw [if_neg hna, if_neg hnt]

lemma terminate_found_state (st : ManagerState) (gid : Str) (now : Int)
    (g : Gosling) (hfind : getGosling st gid = some g) :
    (terminateGosling st gid now).2 =
      updateGosling st gid (terminateRecord g now) := by
  unfold terminateGosling
  rw [hfind]

/-- Claim C2 (amended): with the circuit breaker enabled, `runGoose` rejects
exactly when the running count has reached `maxActiveGoslings` or the
registry size has reached `maxTotalGoslings`; the two rejections carry
distinct errors; a rejection spawns nothing and leaves the registry
unchanged; and after terminating a running session a further create
succeeds, provided the registry size is still below `maxTotalGoslings`. -/
theorem C2_admission_control (st : ManagerState) (prompt : Str)
    (options : List Str) (id : Str) (ts : Int) (proc : ProcessModel)
    (henabled : st.circuitBreaker.enabled = true) :
    ((runGoose st prompt options id ts proc).result.isOk = false ↔
      st.circuitBreaker.maxActiveGoslings ≤ activeCount st ∨
      st.circuitBreaker.maxTotalGoslings ≤ st.goslings.length) ∧
    ((runGoose st prompt options id ts proc).result.isOk = false →
      (runGoose st prompt options id ts proc).state = st ∧
      (runGoose st prompt options id ts proc).spawned = []) ∧
    (st.circuitBreaker.maxActiveGoslings ≤ activeCount st →
      (runGoose st prompt options id ts proc).result =
        .error (maxActiveMsg st.circuitBreaker.maxActiveGoslings)) ∧
    (¬ st.circuitBreaker.maxActiveGoslings ≤ activeCount st →
      st.circuitBreaker.maxTotalGoslings ≤ st.goslings.length →
      (runGoose st prompt options id ts proc).result =
        .error (maxTotalMsg st.circuitBreaker.maxTotalGoslings)) ∧
    (∀ m n, maxActiveMsg m ≠ maxTotalMsg n) ∧
    (∀ (gid : Str) (g : Gosling) (now : Int),
      getGosling st gid = some g → g.status = .running →
      activeCount st ≤ st.circuitBreaker.maxActiveGoslings →
      st.goslings.length < st.circuitBreaker.maxTotalGoslings →
      (runGoose (terminateGosling st gid now).2 prompt options id ts
        proc).result.isOk = true) := by
  have hterm : ∀ (gid : Str) (g : Gosling) (now : Int),
      getGosling st gid = some g → g.status = .running →
      activeCount st ≤ st.circuitBreaker.maxActiveGoslings →
      st.goslings.length < st.circuitBreaker.maxTotalGoslings →
      (runGoose (terminateGosling st gid now).2 prompt options id ts
        proc).result.isOk = true := by
    intro gid g now hfind hrun hle hlen
    rw [terminate_found_state st gid now g hfind]
    have hTnr : (terminateRecord g now).status.isRunning = false := by
      rw [terminateRecord_status_of_running g now hrun]
      rfl
    have hlt : activeCount (updateGosling st gid (terminateRecord g now))
        < activeCount st :=
      filter_running_map_update_lt st.goslings gid g (terminateRecord g now)
        hfind (by rw [hrun]; rfl) hTnr
    have hlen2 : (updateGosling st gid (terminateRecord g now)).goslings.length
        = st.goslings.length := by
      simp [updateGosling]
    have hcbA : (updateGosling st gid
        (terminateRecord g now)).circuitBreaker.maxActiveGoslings
        = st.circuitBreaker.maxActiveGoslings := rfl
    have hcbT : (updateGosling st gid
        (terminateRecord g now)).circuitBreaker.maxTotalGoslings
        = st.circuitBreaker.maxTotalGoslings := rfl
    rw [runGoose_accept _ prompt options id ts proc
      (by intro hc; have h2 := hc.2; omega)
      (by intro hc; have h2 := hc.2; omega)]
    rfl
  by_cases hA : st.circuitBreaker.maxActiveGoslings ≤ activeCount st
  · rw [runGoose_reject_active st prompt options id ts proc ⟨henabled, hA⟩]
    exact ⟨⟨fun _ => Or.inl hA, fun _ => rfl⟩, fun _ => ⟨rfl, rfl⟩,
      fun _ => rfl, fun hcon _ => absurd hA hcon,
      maxActiveMsg_ne_maxTotalMsg, hterm⟩
  · by_cases hT : st.circuitBreaker.maxTotalGoslings ≤ st.goslings.length
    · rw [runGoose_reject_total st prompt options id ts proc
        (fun hc => hA hc.2) ⟨henabled, hT⟩]
      exact ⟨⟨fun _ => Or.inr hT, fun _ => rfl⟩, fun _ => ⟨rfl, rfl⟩,
        fun hcon => absurd hcon hA, fun _ _ => rfl,
        maxActiveMsg_ne_maxTotalMsg, hterm⟩
    · rw [runGoose_accept st prompt options id ts proc
        (fun hc => hA hc.2) (fun hc => hT hc.2)]
      refine ⟨⟨fun hfalse => Bool.noConfusion hfalse, fun hor => ?_⟩,
        fun hfalse => Bool.noConfusion hfalse, fun hcon => absurd hcon hA,
        fun _ hcon => absurd hcon hT, maxActiveMsg_ne_maxTotalMsg, hterm⟩
      rcases hor with h | h
      · exact absurd h hA
      · exact absurd h hT

/-- Circuit breaker configuration of the C2 counterexample: one active and
one total session allowed. -/
def cexCb : CircuitBreakerConfig :=
  { maxActiveGoslings := 1
    maxTotalGoslings := 1
    maxRuntimeMinutes := 30
    maxOutputSizeBytes := 1024
    maxPromptsPerGosling := 10
    autoTerminateIdleMinutes := 10
    enabled := true }

/-- The single running session of the C2 counterexample. -/
def cexGosling : Gosling :=
  createdGosling (("a").data) (("task").data) [] ⟨true, true⟩ 0

/-- Manager state of the C2 counterexample: the registry holds one running
session and both ceilings are 1. -/
def cexState : ManagerState := ⟨[cexGosling], cexCb⟩

/-- Counterexample to claim C2 as stated: with the circuit breaker enabled,
after the only running session terminates, creating one more session still
fails, because termination does not shrink the registry and the
total-session ceiling is already reached. -/
theorem C2_counterexample :
    cexState.circuitBreaker.enabled = true ∧
    getGosling cexState (("a").data) = some cexGosling ∧
    cexGosling.status = GStatus.running ∧
    (terminateGosling cexState (("a").data) 5).1 = true ∧
    (runGoose (terminateGosling cexState (("a").data) 5).2 (("task2").data)
      [] (("b").data) 6 ⟨true, true⟩).result.isOk = false := by
  refine ⟨rfl, by decide, rfl, by decide, by decide⟩

lemma interactivePromptOf_ne (p : Str) : interactivePromptOf p ≠ p := by
  intro h
  have hl := congrArg List.length h
  rw [interactivePromptOf, List.length_append] at hl
  have hpos : 0 < interactivePromptPreamble.length := by decide
  omega

/-- Claim C9: a successful `runGoose` passes the amended
interactivity-encouraging prompt to the spawned invocation (as the final
`--text` argument), while the session record stores the original prompt as
its `prompt` field and as the single initial history entry; the amended
prompt differs from the original and never appears in the stored record. -/
theorem C9_amended_prompt_not_stored (st : ManagerState) (prompt : Str)
    (options : List Str) (id : Str) (ts : Int) (proc : ProcessModel)
    (g : Gosling)
    (hok : (runGoose st prompt options id ts proc).result = .ok g) :
    g.prompt = prompt ∧
    g.promptHistory = [⟨prompt, ts⟩] ∧
    (runGoose st prompt options id ts proc).spawned
      = [⟨gooseCmd, freshArgs id options prompt⟩] ∧
    (freshArgs id options prompt).getLast? = some (interactivePromptOf prompt) ∧
    interactivePromptOf prompt ≠ prompt ∧
    (∀ e ∈ g.promptHistory, e.prompt = prompt) := by
  by_cases hA : st.circuitBreaker.enabled = true ∧
      st.circuitBreaker.maxActiveGoslings ≤ activeCount st
  · rw [runGoose_reject_active st prompt options id ts proc hA] at hok
    exact absurd hok (by simp)
  · by_cases hT : st.circuitBreaker.enabled = true ∧
        st.circuitBreaker.maxTotalGoslings ≤ st.goslings.length
    · rw [runGoose_reject_total st prompt options id ts proc hA hT] at hok
      exact absurd hok (by simp)
    · rw [runGoose_accept st prompt options id ts proc hA hT] at hok ⊢
      simp only [Except.ok.injEq] at hok
      subst hok
      refine ⟨rfl, rfl, rfl, ?_, interactivePromptOf_ne prompt, ?_⟩
      · unfold freshArgs
        rw [List.getLast?_append_of_ne_nil _ (by simp)]
        rfl
      · intro e he
        simp only [createdGosling, List.mem_singleton] at he
        rw [he]

/-- Pagination exactly as the specification words it: the offset is clamped
into `[0, lineCount-1]` with negative values treated as 0, a limit of at
most 0 is replaced by the default 100, the returned window is the lines
`[offset, min(offset+limit, lineCount))` joined with the original line
separator, and the metadata reports the clamped offset, the window end, the
line count, and `hasMore = endLine < totalLines`.  Compared against
`paginateImpl`, which is translated from the source. -/
def paginateSpec (output : Str) (offset limit : Int) : OutputPage :=
  let lines := output.splitOn nl
  let n := lines.length
  let o : Nat := if offset < 0 then 0 else min offset.toNat (n - 1)
  let l : Nat := if limit ≤ 0 then 100 else limit.toNat
  let e : Nat := min (o + l) n
  ⟨List.intercalate [nl] ((lines.take e).drop o),
    ⟨n, (o : Int), (e : Int), decide (e < n)⟩⟩

lemma getGoslingOutput_found (st : ManagerState) (id : Str)
    (offset limit : Int) (full : Bool) (g : Gosling)
    (hfind : getGosling st id = some g) :
    getGoslingOutput st id offset limit full
      = some (paginateImpl g.output g.outputLineCount offset limit full) := by
  unfold getGoslingOutput
  rw [hfind]

lemma paginateImpl_paged_eq_spec (output : Str) (lc : Nat)
    (offset limit : Int) :
    paginateImpl output lc offset limit false
      = paginateSpec output offset limit := by
  have hn : 1 ≤ (output.splitOn nl).length :=
    List.length_pos.mpr (splitOn_ne_nil nl output)
  unfold paginateImpl paginateSpec
  rw [if_neg Bool.false_ne_true]
  dsimp only
  have hO : (if ((output.splitOn nl).length : Int) ≤
        (if offset < 0 then 0 else offset) then
        max 0 (((output.splitOn nl).length : Int) - 1)
      else (if offset < 0 then 0 else offset))
      = (((if offset < 0 then 0
          else min offset.toNat ((output.splitOn nl).length - 1)) : Nat) : Int) := by
    split_ifs <;> omega
  have hE : min ((if ((output.splitOn nl).length : Int) ≤
          (if offset < 0 then 0 else offset) then
          max 0 (((output.splitOn nl).length : Int) - 1)
        else (if offset < 0 then 0 else offset))
        + (if limit ≤ 0 then 100 else limit)) ((output.splitOn nl).length : Int)
      = ((min ((if offset < 0 then 0
            else min offset.toNat ((output.splitOn nl).length - 1))
          + (if limit ≤ 0 then 100 else limit.toNat))
          (output.splitOn nl).length : Nat) : Int) := by
    split_ifs <;> omega
  rw [hE, hO, Int.toNat_ofNat, Int.toNat_ofNat]
  simp
  split_ifs <;> omega

/-- Claim C5: for a registered session, `getGoslingOutput` with
`fullOutput = false` behaves exactly as the specification describes
(`paginateSpec`): offset clamped into `[0, lineCount-1]`, non-positive
limit replaced by 100, window `[offset, min(offset+limit, lineCount))`
joined with the separator, metadata `totalLines`/`startLine`/`endLine`/
`hasMore = endLine < totalLines`; with `fullOutput = true` it ignores
offset and limit and returns the entire buffer with `hasMore = false`. -/
theorem C5_pagination_contract (st : ManagerState) (id : Str) (g : Gosling)
    (offset limit : Int) (hfind : getGosling st id = some g) :
    getGoslingOutput st id offset limit false
      = some (paginateSpec g.output offset limit) ∧
    (∀ o1 l1 o2 l2 : Int,
      getGoslingOutput st id o1 l1 true = getGoslingOutput st id o2 l2 true) ∧
    getGoslingOutput st id offset limit true
      = some ⟨g.output,
          ⟨g.outputLineCount, 0, (g.outputLineCount : Int), false⟩⟩ := by
  refine ⟨?_, ?_, ?_⟩
  · rw [getGoslingOutput_found st id offset limit false g hfind,
      paginateImpl_paged_eq_spec]
  · intro o1 l1 o2 l2
    rw [getGoslingOutput_found st id o1 l1 true g hfind,
      getGoslingOutput_found st id o2 l2 true g hfind]
    rfl
  · rw [getGoslingOutput_found st id offset limit true g hfind]
    rfl

lemma paginateSpec_zero (output : Str) (N : Int) (hN : 0 < N) :
    paginateSpec output 0 N =
      ⟨List.intercalate [nl]
          ((output.splitOn nl).take (min N.toNat (output.splitOn nl).length)),
        ⟨(output.splitOn nl).length, 0,
          ((min N.toNat (output.splitOn nl).length : Nat) : Int),
          decide (min N.toNat (output.splitOn nl).length
            < (output.splitOn nl).length)⟩⟩ := by
  unfold paginateSpec
  dsimp only
  rw [if_neg (by omega), if_neg (by omega)]
  simp

lemma window_splitOn (output : Str) (e : Nat) (he1 : 1 ≤ e) :
    (List.intercalate [nl] ((output.splitOn nl).take e)).splitOn nl
      = (output.splitOn nl).take e := by
  have hn : 1 ≤ (output.splitOn nl).length :=
    List.length_pos.mpr (splitOn_ne_nil nl output)
  have htake_ne : (output.splitOn nl).take e ≠ [] := by
    apply List.ne_nil_of_length_pos
    rw [List.length_take]
    omega
  have hmem : ∀ l2 ∈ (output.splitOn nl).take e, nl ∉ l2 := by
    intro l2 hl2
    exact not_mem_splitOn nl output l2 (List.take_subset e _ hl2)
  exact List.splitOn_intercalate _ nl hmem htake_ne

/-- Claim C8 (amended): for a registered session and any `N > 0`, the page
`getGoslingOutput(id, 0, N, false)` is an initial segment (by lines) of the
full output `getGoslingOutput(id, 0, N, true)`; it is a proper (strict)
initial segment exactly when `N` is less than the line count of the
output. -/
theorem C8_window_initial_segment (st : ManagerState) (id : Str)
    (g : Gosling) (N : Int) (hfind : getGosling st id = some g)
    (hN : 0 < N) :
    ∃ p q, getGoslingOutput st id 0 N false = some p ∧
      getGoslingOutput st id 0 N true = some q ∧
      q.text = g.output ∧
      (∃ rest, linesOf p.text ++ rest = linesOf q.text) ∧
      ((∃ rest, rest ≠ [] ∧ linesOf p.text ++ rest = linesOf q.text) ↔
        N < ((linesOf g.output).length : Int)) := by
  have hn : 1 ≤ (g.output.splitOn nl).length :=
    List.length_pos.mpr (splitOn_ne_nil nl g.output)
  have he1 : 1 ≤ min N.toNat (g.output.splitOn nl).length := by omega
  have hsplit := window_splitOn g.output
    (min N.toNat (g.output.splitOn nl).length) he1
  refine ⟨paginateSpec g.output 0 N,
    ⟨g.output, ⟨g.outputLineCount, 0, (g.outputLineCount : Int), false⟩⟩,
    ?_, ?_, rfl, ?_, ?_⟩
  · rw [getGoslingOutput_found st id 0 N false g hfind,
      paginateImpl_paged_eq_spec]
  · rw [getGoslingOutput_found st id 0 N true g hfind]
    rfl
  · refine ⟨(g.output.splitOn nl).drop
      (min N.toNat (g.output.splitOn nl).length), ?_⟩
    rw [paginateSpec_zero g.output N hN]
    unfold linesOf
    dsimp only
    rw [hsplit]
    exact List.take_append_drop _ _
  · constructor
    · rintro ⟨rest, hne, happ⟩
      rw [paginateSpec_zero g.output N hN] at happ
      unfold linesOf at happ ⊢
      dsimp only at happ
      rw [hsplit] at happ
      have hlen := congrArg List.length happ
      rw [List.length_append, List.length_take] at hlen
      have hrl : 0 < rest.length := List.length_pos.mpr hne
      omega
    · intro hlt
      refine ⟨(g.output.splitOn nl).drop
        (min N.toNat (g.output.splitOn nl).length), ?_, ?_⟩
      · apply List.ne_nil_of_length_pos
        rw [List.length_drop]
        unfold linesOf at hlt
        omega
      · rw [paginateSpec_zero g.output N hN]
        unfold linesOf
        dsimp only
        rw [hsplit]
        exact List.take_append_drop _ _

/-- Session of the C8 counterexample: a single line of output and no
newline, so any positive page limit already covers the whole buffer. -/
def c8Gosling : Gosling :=
  { createdGosling (("c").data) (("t").data) [] ⟨true, true⟩ 0 with
    output := ("a").data
    outputSize := 1 }

/-- Manager state of the C8 counterexample. -/
def c8State : ManagerState := ⟨[c8Gosling], cexCb⟩

/-- Counterexample to claim C8 as stated: with one line of output and
`N = 1`, the page `getGoslingOutput(id, 0, 1, false)` equals the full
output line for line, so it is an initial segment but not a strict one. -/
theorem C8_counterexample :
    ∃ p q, getGoslingOutput c8State (("c").data) 0 1 false = some p ∧
      getGoslingOutput c8State (("c").data) 0 1 true = some q ∧
      linesOf p.text = linesOf q.text ∧
      ¬ (∃ rest, rest ≠ [] ∧ linesOf p.text ++ rest = linesOf q.text) := by
  refine ⟨⟨("a").data, ⟨1, 0, 1, false⟩⟩, ⟨("a").data, ⟨0, 0, 0, false⟩⟩,
    by decide, by decide, by decide, ?_⟩
  rintro ⟨rest, hne, happ⟩
  have hp : linesOf (("a").data) = [("a").data] := by decide
  rw [hp] at happ
  have hl := congrArg List.length happ
  rw [List.length_append] at hl
  simp at hl
  exact hne hl

/-- Sample circuit breaker used by concrete witnesses: a small output
ceiling of 4 bytes, all other fields at their source defaults except the
prompt ceiling, kept at the default 10. -/
def sampleCb : CircuitBreakerConfig :=
  { maxActiveGoslings := 5
    maxTotalGoslings := 20
    maxRuntimeMinutes := 30
    maxOutputSizeBytes := 4
    maxPromptsPerGosling := 10
    autoTerminateIdleMinutes := 10
    enabled := true }

/-- Running session with 3 bytes of output, for the C1 witness. -/
def w1Gosling : Gosling :=
  { createdGosling (("g1").data) (("p").data) [] ⟨true, true⟩ 0 with
    output := ("abc").data
    outputSize := 3 }

/-- Witness for C1 at a concrete input: a 2-byte chunk arriving on a
running session holding 3 of at most 4 bytes. -/
theorem C1_output_ceiling_witness :
    sampleCb.enabled = true ∧ w1Gosling.status = GStatus.running ∧
    w1Gosling.outputSize ≤ sampleCb.maxOutputSizeBytes ∧
    sampleCb.maxOutputSizeBytes
      < w1Gosling.outputSize + (("xy").data).length ∧
    ((handleStdoutRecord sampleCb w1Gosling (("xy").data) 7).output
        = w1Gosling.output ++ (("xy").data).take
            (sampleCb.maxOutputSizeBytes - w1Gosling.outputSize) ∧
      (handleStdoutRecord sampleCb w1Gosling (("xy").data) 7).outputSize
        = sampleCb.maxOutputSizeBytes ∧
      (handleStdoutRecord sampleCb w1Gosling (("xy").data) 7).status
        = GStatus.completed) :=
  ⟨rfl, rfl, by decide, by decide,
    C1_output_ceiling sampleCb w1Gosling (("xy").data) 7 rfl rfl
      (by decide) (by decide)⟩

/-- Witness for C2 at a concrete input: the counterexample state with both
ceilings equal to 1 and one running session. -/
theorem C2_admission_control_witness :
    cexState.circuitBreaker.enabled = true ∧
    (((runGoose cexState (("p").data) [] (("n").data) 3
          ⟨true, true⟩).result.isOk = false ↔
        cexState.circuitBreaker.maxActiveGoslings ≤ activeCount cexState ∨
        cexState.circuitBreaker.maxTotalGoslings
          ≤ cexState.goslings.length) ∧
      ((runGoose cexState (("p").data) [] (("n").data) 3
          ⟨true, true⟩).result.isOk = false →
        (runGoose cexState (("p").data) [] (("n").data) 3
          ⟨true, true⟩).state = cexState ∧
        (runGoose cexState (("p").data) [] (("n").data) 3
          ⟨true, true⟩).spawned = []) ∧
      (cexState.circuitBreaker.maxActiveGoslings ≤ activeCount cexState →
        (runGoose cexState (("p").data) [] (("n").data) 3
          ⟨true, true⟩).result =
          .error (maxActiveMsg cexState.circuitBreaker.maxActiveGoslings)) ∧
      (¬ cexState.circuitBreaker.maxActiveGoslings ≤ activeCount cexState →
        cexState.circuitBreaker.maxTotalGoslings
          ≤ cexState.goslings.length →
        (runGoose cexState (("p").data) [] (("n").data) 3
          ⟨true, true⟩).result =
          .error (maxTotalMsg cexState.circuitBreaker.maxTotalGoslings)) ∧
      (∀ m n, maxActiveMsg m ≠ maxTotalMsg n) ∧
      (∀ (gid : Str) (g : Gosling) (now : Int),
        getGosling cexState gid = some g → g.status = .running →
        activeCount cexState ≤ cexState.circuitBreaker.maxActiveGoslings →
        cexState.goslings.length
          < cexState.circuitBreaker.maxTotalGoslings →
        (runGoose (terminateGosling cexState gid now).2 (("p").data) []
          (("n").data) 3 ⟨true, true⟩).result.isOk = true)) :=
  ⟨rfl, C2_admission_control cexState (("p").data) [] (("n").data) 3
    ⟨true, true⟩ rfl⟩

/-- Circuit breaker with a prompt ceiling of 2, for the C3 witness. -/
def w3Cb : CircuitBreakerConfig :=
  { maxActiveGoslings := 5
    maxTotalGoslings := 20
    maxRuntimeMinutes := 30
    maxOutputSizeBytes := 1024
    maxPromptsPerGosling := 2
    autoTerminateIdleMinutes := 10
    enabled := true }

/-- Witness for C3 at a concrete input: prompt ceiling 2, so the third
`sendPrompt` call is rejected with no spawn and no state change. -/
theorem C3_prompt_ceiling_witness :
    w3Cb.enabled = true ∧ 1 ≤ w3Cb.maxPromptsPerGosling ∧
    ((sendPromptToGosling
        (sendIter (("i").data) (("q").data) (envOk 9)
          w3Cb.maxPromptsPerGosling
          (c3Start w3Cb (("i").data) (("p").data) [] 0))
        (("i").data) (("q").data) (envOk 9)
      = ⟨false,
          sendIter (("i").data) (("q").data) (envOk 9)
            w3Cb.maxPromptsPerGosling
            (c3Start w3Cb (("i").data) (("p").data) [] 0),
          []⟩) ∧
    (∀ (st : ManagerState) (gid q : Str) (env : SendEnv) (g : Gosling),
      st.circuitBreaker.enabled = true → getGosling st gid = some g →
      st.circuitBreaker.maxPromptsPerGosling ≤ g.promptCount →
      sendPromptToGosling st gid q env = ⟨false, st, []⟩)) :=
  ⟨rfl, by decide,
    C3_prompt_ceiling w3Cb (("i").data) (("p").data) [] 0 (("q").data) 9
      rfl (by decide)⟩

/-- Terminal (completed) session for the C4 witness. -/
def w4Gosling : Gosling :=
  { createdGosling (("g4").data) (("p").data) [] ⟨true, true⟩ 0 with
    status := GStatus.completed
    endTime := some 2 }

/-- Manager state of the C4 witness. -/
def w4State : ManagerState := ⟨[w4Gosling], sampleCb⟩

/-- Witness for C4 at a concrete input: resuming a completed session with a
working process and a successful write. -/
theorem C4_resume_preserves_identity_witness :
    getGosling w4State (("g4").data) = some w4Gosling ∧
    w4Gosling.status ≠ GStatus.running ∧
    (sendPromptToGosling w4State (("g4").data) (("q").data)
      (envOk 9)).ok = true ∧
    (∃ g', getGosling
        (sendPromptToGosling w4State (("g4").data) (("q").data)
          (envOk 9)).state (("g4").data) = some g' ∧
      g'.id = w4Gosling.id ∧ g'.prompt = w4Gosling.prompt ∧
      g'.promptHistory = w4Gosling.promptHistory ++ [⟨("q").data, (envOk 9).now⟩] ∧
      g'.promptCount = w4Gosling.promptCount + 1 ∧
      g'.status = .running ∧ g'.endTime = none) :=
  ⟨by decide, by decide, by decide,
    C4_resume_preserves_identity w4State (("g4").data) (("q").data)
      (envOk 9) w4Gosling (by decide) (by decide) (by decide)⟩

/-- Witness for C5 at a concrete input: a negative offset and a
non-positive limit against a one-line buffer. -/
theorem C5_pagination_contract_witness :
    getGosling c8State (("c").data) = some c8Gosling ∧
    (getGoslingOutput c8State (("c").data) (-1) 0 false
        = some (paginateSpec c8Gosling.output (-1) 0) ∧
      (∀ o1 l1 o2 l2 : Int,
        getGoslingOutput c8State (("c").data) o1 l1 true
          = getGoslingOutput c8State (("c").data) o2 l2 true) ∧
      getGoslingOutput c8State (("c").data) (-1) 0 true
        = some ⟨c8Gosling.output,
            ⟨c8Gosling.outputLineCount, 0,
              (c8Gosling.outputLineCount : Int), false⟩⟩) :=
  ⟨by decide, C5_pagination_contract c8State (("c").data) c8Gosling (-1) 0
    (by decide)⟩

/-- Witness for C6 at a concrete input: a chunk with a newline arriving on
a session satisfying the size invariant. -/
theorem C6_output_size_invariant_witness :
    sizeInvariant c8Gosling ∧
    (sizeInvariant
        (applyEvent sampleCb (GEvent.stdoutData (("z\n").data) 4) c8Gosling) ∧
      (∃ t, c8Gosling.output ++ t
        = (applyEvent sampleCb (GEvent.stdoutData (("z\n").data) 4)
            c8Gosling).output) ∧
      c8Gosling.outputSize
        ≤ (applyEvent sampleCb (GEvent.stdoutData (("z\n").data) 4)
            c8Gosling).outputSize ∧
      c8Gosling.outputLineCount
        ≤ (applyEvent sampleCb (GEvent.stdoutData (("z\n").data) 4)
            c8Gosling).outputLineCount) :=
  ⟨by decide,
    C6_output_size_invariant.2 sampleCb
      (GEvent.stdoutData (("z\n").data) 4) c8Gosling (by decide)⟩

/-- Witness for C7 at a concrete input: a running session inspected at
`now = 5` with threshold 2. -/
theorem C7_activity_classification_witness :
    getGosling c8State (("c").data) = some c8Gosling ∧
    ((c8Gosling.status ≠ .running →
        getGoslingActivityStatus c8State (("c").data) 5 2
          = some ⟨.IDLE, none⟩) ∧
      (c8Gosling.status = .running → 5 - c8Gosling.lastOutputTime < 2 →
        getGoslingActivityStatus c8State (("c").data) 5 2
          = some ⟨.WORKING, none⟩) ∧
      (c8Gosling.status = .running → 2 ≤ 5 - c8Gosling.lastOutputTime →
        getGoslingActivityStatus c8State (("c").data) 5 2
          = some ⟨.IDLE, some (5 - c8Gosling.lastOutputTime)⟩)) :=
  ⟨by decide,
    C7_activity_classification c8State (("c").data) 5 2 c8Gosling
      (by decide)⟩

/-- Witness for C8 at a concrete input: one line of output and `N = 1`. -/
theorem C8_window_initial_segment_witness :
    getGosling c8State (("c").data) = some c8Gosling ∧ (0 : Int) < 1 ∧
    (∃ p q, getGoslingOutput c8State (("c").data) 0 1 false = some p ∧
      getGoslingOutput c8State (("c").data) 0 1 true = some q ∧
      q.text = c8Gosling.output ∧
      (∃ rest, linesOf p.text ++ rest = linesOf q.text) ∧
      ((∃ rest, rest ≠ [] ∧ linesOf p.text ++ rest = linesOf q.text) ↔
        (1 : Int) < ((linesOf c8Gosling.output).length : Int))) :=
  ⟨by decide, by decide,
    C8_window_initial_segment c8State (("c").data) c8Gosling 1 (by decide)
      (by decide)⟩

/-- Empty manager state for the C9 witness. -/
def w9State : ManagerState := ⟨[], sampleCb⟩

/-- The session the C9 witness creates. -/
def w9Gosling : Gosling :=
  createdGosling (("w9").data) (("p9").data) [] ⟨true, true⟩ 0

/-- Witness for C9 at a concrete input: a fresh create on an empty
registry. -/
theorem C9_amended_prompt_not_stored_witness :
    (runGoose w9State (("p9").data) [] (("w9").data) 0
      ⟨true, true⟩).result = .ok w9Gosling ∧
    (w9Gosling.prompt = ("p9").data ∧
      w9Gosling.promptHistory = [⟨("p9").data, 0⟩] ∧
      (runGoose w9State (("p9").data) [] (("w9").data) 0
        ⟨true, true⟩).spawned
        = [⟨gooseCmd, freshArgs (("w9").data) [] (("p9").data)⟩] ∧
      (freshArgs (("w9").data) [] (("p9").data)).getLast?
        = some (interactivePromptOf (("p9").data)) ∧
      interactivePromptOf (("p9").data) ≠ ("p9").data ∧
      (∀ e ∈ w9Gosling.promptHistory, e.prompt = ("p9").data)) :=
  ⟨by decide,
    C9_amended_prompt_not_stored w9State (("p9").data) [] (("w9").data) 0
      ⟨true, true⟩ w9Gosling (by decide)⟩

/-- Running session whose process has an unwritable stdin, for the C10
witness. -/
def w10Gosling : Gosling :=
  createdGosling (("gA").data) (("p").data) [] ⟨false, true⟩ 0

/-- Manager state of the C10 witness. -/
def w10State : ManagerState := ⟨[w10Gosling], sampleCb⟩

/-- Witness for C10 at a concrete input: a `sendPrompt` call that fails
because stdin is not writable. -/
theorem C10_failure_preserves_prompts_witness :
    (sendPromptToGosling w10State (("gA").data) (("q").data)
      (envOk 3)).ok = false ∧
    ((getGosling w10State (("gA").data) = none →
        (sendPromptToGosling w10State (("gA").data) (("q").data)
          (envOk 3)).state = w10State) ∧
      (∀ g, getGosling w10State (("gA").data) = some g →
        ∃ g', getGosling
            (sendPromptToGosling w10State (("gA").data) (("q").data)
              (envOk 3)).state (("gA").data) = some g' ∧
          g'.promptHistory = g.promptHistory ∧
          g'.promptCount = g.promptCount)) :=
  ⟨by decide,
    C10_failure_preserves_prompts w10State (("gA").data) (("q").data)
      (envOk 3) (by decide)⟩

end MotherGoose
